import Mathlib

/-!
# buffalo: the clipboard-register daemon (src/buffalo.c)

A shallow embedding of the daemon side of `buffalo.c`: the 256 registers, the
active-register pointer, the four event handlers and the two command handlers,
followed by theorems about them.

Conventions of the embedding
* machine words (atoms, windows, timestamps, bytes) are `Nat`;
* the global array `registers[NUM_REGISTERS]` is a function on `Fin NUM_REGISTERS`;
  an index outside the array is undefined behaviour and makes a handler return `none`;
* a heap buffer is the list of ALL bytes of its allocation; reading past its end is
  undefined behaviour (`none`);
* the requests a handler writes to the connection `X` are appended to the field `X`
  of the state, oldest first.
-/

namespace Buffalo

/-! ## Constants -/

/-- The constant `#define NUM_REGISTERS (1<<8)`, that is 256. -/
abbrev NUM_REGISTERS : Nat := 256

/-- The value of `XCB_NONE` in xcb/xproto.h. -/
def XCB_NONE : Nat := 0
/-- The value of `XCB_CURRENT_TIME` in xcb/xproto.h. -/
def XCB_CURRENT_TIME : Nat := 0
/-- The value of `XCB_PROP_MODE_REPLACE` in xcb/xproto.h. -/
def XCB_PROP_MODE_REPLACE : Nat := 0
/-- The value of `XCB_EVENT_MASK_NO_EVENT` in xcb/xproto.h. -/
def XCB_EVENT_MASK_NO_EVENT : Nat := 0
/-- The value of `XCB_GET_PROPERTY_TYPE_ANY` in xcb/xproto.h. -/
def XCB_GET_PROPERTY_TYPE_ANY : Nat := 0
/-- The value of `UINT_MAX` in limits.h (32-bit unsigned). -/
def UINT_MAX : Nat := 4294967295
/-- The event code `XCB_SELECTION_CLEAR` in xcb/xproto.h. -/
def XCB_SELECTION_CLEAR : Nat := 29
/-- The event code `XCB_SELECTION_REQUEST` in xcb/xproto.h. -/
def XCB_SELECTION_REQUEST : Nat := 30
/-- The event code `XCB_SELECTION_NOTIFY` in xcb/xproto.h. -/
def XCB_SELECTION_NOTIFY : Nat := 31
/-- The event code `XCB_CLIENT_MESSAGE` in xcb/xproto.h. -/
def XCB_CLIENT_MESSAGE : Nat := 33
/-- The constant `#define XCB_EVENT_RESPONSE_TYPE_MASK (0x7f)`. -/
def XCB_EVENT_RESPONSE_TYPE_MASK : Nat := 0x7f

/-! ## Types -/

/-- The type `enum Atom`: the indices into the global `atoms[]`. -/
inductive Atom where
  | COPY
  | PASTE
  | PRIMARY
  | TEXT
  | STRING
  | UTF8_STRING
  | BUFFALO_DAEMON
  | WINDOW
  | ATOM
  | TARGETS
  deriving DecidableEq, Repr

/-- The integer value of an `enum Atom` constant (C numbers them from 0). -/
def Atom.toNat : Atom → Nat
  | .COPY => 0
  | .PASTE => 1
  | .PRIMARY => 2
  | .TEXT => 3
  | .STRING => 4
  | .UTF8_STRING => 5
  | .BUFFALO_DAEMON => 6
  | .WINDOW => 7
  | .ATOM => 8
  | .TARGETS => 9

/-- The type `typedef struct { xcb_atom_t atom; char *data; } Register;`.
The field `data` is `none` for a NULL pointer, otherwise every byte of the pointed-to allocation. -/
structure Register where
  atom : Nat
  data : Option (List Nat)
  deriving DecidableEq, Repr

/-- The fields of `xcb_client_message_event_t` that the daemon and the client use:
`window`, `type` and `data.data32[0]`. -/
structure xcb_client_message_event_t where
  window : Nat
  type : Nat
  data32_0 : Nat
  deriving DecidableEq, Repr

/-- The fields of `xcb_selection_notify_event_t`. -/
structure xcb_selection_notify_event_t where
  time : Nat
  requestor : Nat
  selection : Nat
  target : Nat
  property : Nat
  deriving DecidableEq, Repr

/-- The fields of `xcb_selection_request_event_t`. -/
structure xcb_selection_request_event_t where
  time : Nat
  owner : Nat
  requestor : Nat
  selection : Nat
  target : Nat
  property : Nat
  deriving DecidableEq, Repr

/-- The fields of `xcb_selection_clear_event_t` that the daemon reads. -/
structure xcb_selection_clear_event_t where
  selection : Nat
  deriving DecidableEq, Repr

/-- The requests the daemon writes to its connection `X`, with the arguments of the
xcb call that issues each. -/
inductive XRequest where
  | convert_selection (requestor selection target property time : Nat)
  | set_selection_owner (owner selection time : Nat)
  | get_property (delete window property type long_offset long_length : Nat)
  | delete_property (window property : Nat)
  | change_property (mode window property type format data_len : Nat) (data : List Nat)
  | send_event (propagate destination event_mask : Nat) (event : xcb_selection_notify_event_t)
  deriving DecidableEq, Repr

/-- The globals of the daemon process: `registers`, `active_register` (a pointer into
`registers`, here the index it points at), `running`, `win`, `atoms`, and the requests
written so far on the connection `X`. -/
structure Daemon where
  registers : Fin NUM_REGISTERS → Register
  active_register : Option (Fin NUM_REGISTERS)
  running : Bool
  win : Nat
  atoms : Atom → Nat
  X : List XRequest

/-- An event as `xcb_wait_for_event` hands it to `handle_event`. A selection-notify
event comes with what the handler obtains from outside while handling it: the server's
reply to its `xcb_get_property` (`none` for a NULL reply, otherwise the bytes of the
property value) and the value that the byte `malloc` leaves unwritten happens to have.
The constructor `unhandled` stands for an event of a kind that has no handler: its
`response_type`, once masked, is none of the four codes of the table in `handle_event`. -/
inductive Event where
  | client_message (ev : xcb_client_message_event_t)
  | selection_notify (ev : xcb_selection_notify_event_t) (reply : Option (List Nat))
      (uninit : Nat)
  | selection_request (ev : xcb_selection_request_event_t)
  | selection_clear (ev : xcb_selection_clear_event_t)
  | unhandled (response_type : Nat)

/-! ## Utility functions -/

/-- The loop of `find_register`: `for (i; i<NUM_REGISTERS; i++) if (registers[i].atom == key)
return registers + i;` started at `i`, with `fuel` bounding the iterations left. -/
def find_register_loop (registers : Fin NUM_REGISTERS → Register) (key : Nat) :
    Nat → Nat → Option (Fin NUM_REGISTERS)
  | 0, _ => none
  | fuel + 1, i =>
    if h : i < NUM_REGISTERS then
      if (registers ⟨i, h⟩).atom = key then some ⟨i, h⟩
      else find_register_loop registers key fuel (i + 1)
    else none

/-- The function `Register *find_register(uint32_t key)`: the first register whose atom is `key`,
`none` for NULL. -/
def find_register (registers : Fin NUM_REGISTERS → Register) (key : Nat) :
    Option (Fin NUM_REGISTERS) :=
  find_register_loop registers key NUM_REGISTERS 0

/-- The function `void set_register(Register *reg, char *data)`: the old buffer is freed and the
pointer replaced; the atom and every other register stay. -/
def set_register (registers : Fin NUM_REGISTERS → Register) (reg : Fin NUM_REGISTERS)
    (data : List Nat) : Fin NUM_REGISTERS → Register :=
  fun j => if j = reg then { atom := (registers j).atom, data := some data } else registers j

/-- A block of `n` bytes as `malloc(n)` returns it: allocated, contents not written;
`uninit` is the value its bytes happen to hold. -/
def malloc (n : Nat) (uninit : Nat) : List Nat :=
  List.replicate n uninit

/-- The call `memcpy(dst, src, n)`: the first `n` bytes of `dst` become those of `src`, the rest
of `dst` is untouched. -/
def memcpy (dst src : List Nat) (n : Nat) : List Nat :=
  src.take n ++ dst.drop n

/-- The call `strlen(p)` on an allocation holding the bytes `p`: the number of bytes before the
first zero byte; `none` when there is no zero byte inside the allocation (the read runs
past its end). -/
def strlen : List Nat → Option Nat
  | [] => none
  | c :: cs => if c = 0 then some 0 else (strlen cs).map (· + 1)

/-! ## Command handlers -/

/-- The function `void handle_copy(xcb_generic_event_t *gev)`: the payload word indexes
`registers` as it is. -/
def handle_copy (ev : xcb_client_message_event_t) (s : Daemon) : Option Daemon :=
  if h : ev.data32_0 < NUM_REGISTERS then
    some { s with
      X := s.X ++ [XRequest.convert_selection s.win (s.atoms Atom.PRIMARY)
        (s.atoms Atom.UTF8_STRING) (s.registers ⟨ev.data32_0, h⟩).atom XCB_CURRENT_TIME] }
  else none

/-- The function `void handle_paste(xcb_generic_event_t *gev)`: the payload word indexes
`registers` as it is. -/
def handle_paste (ev : xcb_client_message_event_t) (s : Daemon) : Option Daemon :=
  let reg := ev.data32_0
  if h : reg < NUM_REGISTERS then
    if (s.registers ⟨reg, h⟩).data.isSome then
      some { s with
        active_register := some ⟨reg, h⟩
        X := s.X ++ [XRequest.set_selection_owner s.win (s.atoms Atom.PRIMARY)
          XCB_CURRENT_TIME] }
    else some s
  else none

/-- The macro `DISPATCH(handler, ev, key)`: every entry of the table whose name is `key`
has its handler called, in table order. -/
def DISPATCH {α : Type} (handler : List (Nat × (α → Daemon → Option Daemon))) (ev : α)
    (key : Nat) (s : Daemon) : Option Daemon :=
  handler.foldlM (fun st h => if h.1 = key then h.2 ev st else some st) s

/-- The function `void handle_message(xcb_generic_event_t *ev)`: the table is keyed by the enum
constants `COPY` and `PASTE` themselves. -/
def handle_message (ev : xcb_client_message_event_t) (s : Daemon) : Option Daemon :=
  DISPATCH [(Atom.COPY.toNat, handle_copy), (Atom.PASTE.toNat, handle_paste)] ev ev.type s

/-! ## Selection handlers -/

/-- The function `void handle_selection_notify(xcb_generic_event_t *gev)`; `reply` and `uninit` are
what the handler gets from the server and from `malloc` (see `Event`). -/
def handle_selection_notify (ev : xcb_selection_notify_event_t) (reply : Option (List Nat))
    (uninit : Nat) (s : Daemon) : Daemon :=
  if ev.property ≠ XCB_NONE then
    let s1 : Daemon :=
      match find_register s.registers ev.property with
      | some reg =>
        let s0 : Daemon := { s with
          X := s.X ++ [XRequest.get_property 0 s.win ev.property XCB_GET_PROPERTY_TYPE_ANY
            0 UINT_MAX] }
        match reply with
        | some value =>
          let l := value.length
          let data := memcpy (malloc (l + 1) uninit) value l
          { s0 with registers := set_register s0.registers reg data }
        | none => s0
      | none => s
    { s1 with X := s1.X ++ [XRequest.delete_property s1.win ev.property] }
  else s

/-- The function `void handle_selection_clear(xcb_generic_event_t *ev)`. -/
def handle_selection_clear (ev : xcb_selection_clear_event_t) (s : Daemon) : Daemon :=
  let sel := ev.selection
  if sel = s.atoms Atom.BUFFALO_DAEMON then { s with running := false }
  else { s with active_register := none }

/-- The function `void handle_selection_request(xcb_generic_event_t *gev)`. The text
branch reads the buffer of the active register with `strlen`; the TARGETS branch writes
on the property `atoms[TARGETS]`. -/
def handle_selection_request (ev : xcb_selection_request_event_t) (s : Daemon) :
    Option Daemon :=
  let response : xcb_selection_notify_event_t :=
    { requestor := ev.requestor
      selection := ev.selection
      property := if ev.property = XCB_NONE then ev.target else ev.property
      target := ev.target
      time := ev.time }
  match s.active_register with
  | some r =>
    if ev.target = s.atoms Atom.TEXT ∨ ev.target = s.atoms Atom.STRING ∨
        ev.target = s.atoms Atom.UTF8_STRING then
      match (s.registers r).data with
      | none => none
      | some data =>
        match strlen data with
        | none => none
        | some n =>
          some { s with
            X := s.X ++
              [XRequest.change_property XCB_PROP_MODE_REPLACE response.requestor
                 response.property response.target 8 n (data.take n),
               XRequest.send_event 0 response.requestor XCB_EVENT_MASK_NO_EVENT response] }
    else if ev.target = s.atoms Atom.TARGETS then
      let ok_targs := [s.atoms Atom.TEXT, s.atoms Atom.STRING, s.atoms Atom.UTF8_STRING]
      some { s with
        X := s.X ++
          [XRequest.change_property XCB_PROP_MODE_REPLACE ev.requestor
             (s.atoms Atom.TARGETS) (s.atoms Atom.ATOM) 32 ok_targs.length ok_targs,
           XRequest.send_event 0 response.requestor XCB_EVENT_MASK_NO_EVENT response] }
    else
      some { s with
        X := s.X ++ [XRequest.send_event 0 response.requestor XCB_EVENT_MASK_NO_EVENT
          { response with property := XCB_NONE }] }
  | none =>
    some { s with
      X := s.X ++ [XRequest.send_event 0 response.requestor XCB_EVENT_MASK_NO_EVENT
        { response with property := XCB_NONE }] }

/-- The bytes of a register as the program reads them. The only read of a buffer is
in `handle_selection_request`, which hands `strlen(active_register->data)` and
`active_register->data` to `xcb_change_property`: the bytes before the first zero byte.
The result is `none` for a NULL pointer and for a buffer with no zero byte inside its
allocation. -/
def register_content (reg : Register) : Option (List Nat) :=
  match reg.data with
  | none => none
  | some data =>
    match strlen data with
    | none => none
    | some n => some (data.take n)

/-! ## Dispatch and main loop -/

/-- The `response_type` byte of an event as the server delivers it. -/
def Event.response_type : Event → Nat
  | .client_message _ => XCB_CLIENT_MESSAGE
  | .selection_notify _ _ _ => XCB_SELECTION_NOTIFY
  | .selection_request _ => XCB_SELECTION_REQUEST
  | .selection_clear _ => XCB_SELECTION_CLEAR
  | .unhandled response_type => response_type

/-- The accessor `#define EV_TYPE(e) (e->response_type & XCB_EVENT_RESPONSE_TYPE_MASK)`. -/
def EV_TYPE (e : Event) : Nat :=
  e.response_type &&& XCB_EVENT_RESPONSE_TYPE_MASK

/-- The function `void handle_event(xcb_generic_event_t *ev)`: `EV_TYPE(ev)` selects the handler and
the handler casts the event to the structure of that kind. -/
def handle_event (ev : Event) (s : Daemon) : Option Daemon :=
  match ev with
  | .client_message m =>
    if EV_TYPE ev = XCB_CLIENT_MESSAGE then handle_message m s else some s
  | .selection_notify n reply uninit =>
    if EV_TYPE ev = XCB_SELECTION_NOTIFY then some (handle_selection_notify n reply uninit s)
    else some s
  | .selection_request r =>
    if EV_TYPE ev = XCB_SELECTION_REQUEST then handle_selection_request r s else some s
  | .selection_clear c =>
    if EV_TYPE ev = XCB_SELECTION_CLEAR then some (handle_selection_clear c s) else some s
  | .unhandled _ => some s

/-- The events of a list handled one after the other by `handle_event`. -/
def handle_events (s : Daemon) (evs : List Event) : Option Daemon :=
  evs.foldlM (fun st ev => handle_event ev st) s

/-- The main loop of `buffalo_daemon`: `while (running && (ev = xcb_wait_for_event(X)))
{ handle_event(ev); ... }`; the list holds the events the server will deliver, and its
end is `xcb_wait_for_event` returning NULL. -/
def buffalo_daemon_loop : Daemon → List Event → Option Daemon
  | s, [] => some s
  | s, ev :: evs =>
    if s.running then
      match handle_event ev s with
      | some s1 => buffalo_daemon_loop s1 evs
      | none => none
    else some s

/-- The globals when the main loop starts: `registers[i].data` and `active_register`
are NULL, `running` is 1, and `init_window` and `init_buffalo_atoms` have stored the
window id and the atoms the server assigned. -/
def init_daemon (win : Nat) (atoms : Atom → Nat) (register_atoms : Fin NUM_REGISTERS → Nat) :
    Daemon :=
  { registers := fun i => { atom := register_atoms i, data := none }
    active_register := none
    running := true
    win := win
    atoms := atoms
    X := [] }

/-! ## Client side -/

/-- The function `void send_message(xcb_atom_t type, uint32_t d)`: the message sent to the daemon
window `dw`; `none` when there is no daemon (`ERR`). -/
def send_message (dw : Nat) (win : Nat) (type : Nat) (d : Nat) :
    Option xcb_client_message_event_t :=
  if dw = 0 then none
  else some { window := win, type := type, data32_0 := d % NUM_REGISTERS }


/-! ## Concrete daemons used to evaluate the handlers -/

/-- Atom values for the examples: `atoms[a] = 100 + a`. -/
def demo_atoms : Atom → Nat :=
  fun a => 100 + a.toNat

/-- A freshly started daemon with window 7 whose register `i` has the atom `1000 + i`. -/
def demo_daemon : Daemon :=
  init_daemon 7 demo_atoms (fun i => 1000 + i.val)

/-- A conversion-completion event for the property `p`. -/
def demo_notify (p : Nat) : xcb_selection_notify_event_t :=
  { time := 0, requestor := 7, selection := 102, target := 105, property := p }

/-- A content request from window 9 for the target `t` with the property field `p`. -/
def demo_request (t p : Nat) : xcb_selection_request_event_t :=
  { time := 5, owner := 7, requestor := 9, selection := 102, target := t, property := p }

/-- The command message of type `t` with the payload word `w`. -/
def demo_command (t w : Nat) : xcb_client_message_event_t :=
  { window := 8, type := t, data32_0 := w }

/-- The invariant of the daemon state: the active register, when there is one, has a
buffer. -/
def ActiveHasData (s : Daemon) : Prop :=
  ∀ r, s.active_register = some r → (s.registers r).data.isSome = true

instance (s : Daemon) : Decidable (ActiveHasData s) := by
  unfold ActiveHasData
  infer_instance

/-- The daemon after register 3 received the bytes 104, 105 (spare byte zero) and was made
the active register. -/
def demo_serving : Daemon :=
  { demo_daemon with
    registers := set_register demo_daemon.registers 3 [104, 105, 0]
    active_register := some 3 }

/-! ## Lemmas on the utility functions -/

theorem find_register_loop_first (registers : Fin NUM_REGISTERS → Register)
    (i : Fin NUM_REGISTERS)
    (hinj : ∀ j k, (registers j).atom = (registers k).atom → j = k) :
    ∀ (fuel start : Nat), start ≤ i.val → i.val < start + fuel →
      find_register_loop registers (registers i).atom fuel start = some i := by
  intro fuel
  induction fuel with
  | zero => intro start h1 h2; omega
  | succ fuel ih =>
    intro start h1 h2
    have hs : start < NUM_REGISTERS := lt_of_le_of_lt h1 i.isLt
    rw [find_register_loop, dif_pos hs]
    by_cases hk : (registers ⟨start, hs⟩).atom = (registers i).atom
    · rw [if_pos hk, hinj _ _ hk]
    · rw [if_neg hk]
      have hne : start ≠ i.val := by
        intro he
        apply hk
        congr 2
        exact Fin.ext he
      exact ih (start + 1) (by omega) (by omega)

theorem find_register_own_atom (registers : Fin NUM_REGISTERS → Register)
    (i : Fin NUM_REGISTERS)
    (hinj : ∀ j k, (registers j).atom = (registers k).atom → j = k) :
    find_register registers (registers i).atom = some i :=
  find_register_loop_first registers i hinj NUM_REGISTERS 0 (Nat.zero_le _) (by
    have := i.isLt
    omega)

theorem memcpy_malloc (b : List Nat) (u : Nat) :
    memcpy (malloc (b.length + 1) u) b b.length = b ++ [u] := by
  simp [memcpy, malloc, List.drop_replicate]

theorem strlen_terminated (buf : List Nat) (h : 0 ∈ buf) :
    strlen buf = some (buf.takeWhile (fun c => c != 0)).length ∧
      buf.take (buf.takeWhile (fun c => c != 0)).length = buf.takeWhile (fun c => c != 0) := by
  induction buf with
  | nil => simp at h
  | cons c cs ih =>
    by_cases hc : c = 0
    · subst hc
      simp [strlen]
    · have hmem : 0 ∈ cs := by
        rcases List.mem_cons.mp h with h0 | h0
        · exact absurd h0.symm hc
        · exact h0
      obtain ⟨ih1, ih2⟩ := ih hmem
      simp [strlen, hc, ih1, ih2]

theorem strlen_unterminated (buf : List Nat) (h : 0 ∉ buf) : strlen buf = none := by
  induction buf with
  | nil => rfl
  | cons c cs ih =>
    have hc : c ≠ 0 := fun he => h (by simp [he])
    have hcs : 0 ∉ cs := fun hm => h (List.mem_cons_of_mem _ hm)
    simp [strlen, hc, ih hcs]

theorem takeWhile_append_terminator (b : List Nat) (u : Nat) (h : 0 ∈ b ∨ u = 0) :
    (b ++ [u]).takeWhile (fun c => c != 0) = b.takeWhile (fun c => c != 0) := by
  induction b with
  | nil =>
    rcases h with h | h
    · simp at h
    · subst h
      simp
  | cons c cs ih =>
    by_cases hc : c = 0
    · subst hc
      simp
    · have hrest : 0 ∈ cs ∨ u = 0 := by
        rcases h with h | h
        · rcases List.mem_cons.mp h with h0 | h0
          · exact absurd h0.symm hc
          · exact Or.inl h0
        · exact Or.inr h
      simp [List.takeWhile_cons, hc, ih hrest]

theorem takeWhile_no_zero (b : List Nat) (h : 0 ∉ b) :
    b.takeWhile (fun c => c != 0) = b := by
  induction b with
  | nil => rfl
  | cons c cs ih =>
    have hc : c ≠ 0 := fun he => h (by simp [he])
    have hcs : 0 ∉ cs := fun hm => h (List.mem_cons_of_mem _ hm)
    simp [List.takeWhile_cons, hc, ih hcs]


/-! ## Lemmas on the handlers -/

theorem set_register_atom (registers : Fin NUM_REGISTERS → Register)
    (reg j : Fin NUM_REGISTERS) (data : List Nat) :
    (set_register registers reg data j).atom = (registers j).atom := by
  unfold set_register
  split <;> rfl

theorem set_register_data (registers : Fin NUM_REGISTERS → Register)
    (reg j : Fin NUM_REGISTERS) (data : List Nat) :
    (set_register registers reg data j).data =
      if j = reg then some data else (registers j).data := by
  unfold set_register
  split <;> rfl

theorem handle_selection_notify_stores (s : Daemon) (i : Fin NUM_REGISTERS) (b : List Nat)
    (u : Nat) (n : xcb_selection_notify_event_t)
    (hinj : ∀ j k, (s.registers j).atom = (s.registers k).atom → j = k)
    (hp : n.property = (s.registers i).atom) (hnz : n.property ≠ XCB_NONE) :
    handle_selection_notify n (some b) u s =
      { s with
        registers := set_register s.registers i (b ++ [u])
        X := s.X ++ [XRequest.get_property 0 s.win n.property XCB_GET_PROPERTY_TYPE_ANY 0
          UINT_MAX, XRequest.delete_property s.win n.property] } := by
  unfold handle_selection_notify
  rw [if_pos hnz, hp, find_register_own_atom s.registers i hinj]
  simp [memcpy_malloc]

theorem handle_selection_request_text (s : Daemon) (r : Fin NUM_REGISTERS)
    (ev : xcb_selection_request_event_t) (buf : List Nat)
    (hact : s.active_register = some r) (hdata : (s.registers r).data = some buf)
    (hterm : 0 ∈ buf)
    (htarget : ev.target = s.atoms Atom.TEXT ∨ ev.target = s.atoms Atom.STRING ∨
      ev.target = s.atoms Atom.UTF8_STRING) :
    handle_selection_request ev s =
      some { s with
        X := s.X ++
          [XRequest.change_property XCB_PROP_MODE_REPLACE ev.requestor
             (if ev.property = XCB_NONE then ev.target else ev.property) ev.target 8
             (buf.takeWhile (fun c => c != 0)).length (buf.takeWhile (fun c => c != 0)),
           XRequest.send_event 0 ev.requestor XCB_EVENT_MASK_NO_EVENT
             { time := ev.time, requestor := ev.requestor, selection := ev.selection,
               target := ev.target,
               property := if ev.property = XCB_NONE then ev.target else ev.property }] } := by
  obtain ⟨h1, h2⟩ := strlen_terminated buf hterm
  unfold handle_selection_request
  simp only [hact, hdata, if_pos htarget, h1, h2]


theorem handle_message_cases (m : xcb_client_message_event_t) (s : Daemon) :
    handle_message m s =
      if m.type = Atom.COPY.toNat then handle_copy m s
      else if m.type = Atom.PASTE.toNat then handle_paste m s
      else some s := by
  unfold handle_message DISPATCH
  by_cases h0 : m.type = 0
  · have h1 : ¬ (1 = m.type) := by omega
    cases hc : handle_copy m s <;> simp [List.foldlM, Atom.toNat, h0, hc]
  · by_cases h1 : m.type = 1
    · cases hc : handle_paste m s <;> simp [List.foldlM, Atom.toNat, h1, hc]
    · have h0s : ¬ (0 = m.type) := fun h => h0 h.symm
      have h1s : ¬ (1 = m.type) := fun h => h1 h.symm
      simp [List.foldlM, Atom.toNat, h0, h1, h0s, h1s]

theorem EV_TYPE_client_message (m : xcb_client_message_event_t) :
    EV_TYPE (Event.client_message m) = XCB_CLIENT_MESSAGE := by
  simp only [EV_TYPE, Event.response_type, XCB_CLIENT_MESSAGE, XCB_EVENT_RESPONSE_TYPE_MASK]
  decide

theorem EV_TYPE_selection_notify (n : xcb_selection_notify_event_t)
    (reply : Option (List Nat)) (uninit : Nat) :
    EV_TYPE (Event.selection_notify n reply uninit) = XCB_SELECTION_NOTIFY := by
  simp only [EV_TYPE, Event.response_type, XCB_SELECTION_NOTIFY, XCB_EVENT_RESPONSE_TYPE_MASK]
  decide

theorem EV_TYPE_selection_request (r : xcb_selection_request_event_t) :
    EV_TYPE (Event.selection_request r) = XCB_SELECTION_REQUEST := by
  simp only [EV_TYPE, Event.response_type, XCB_SELECTION_REQUEST, XCB_EVENT_RESPONSE_TYPE_MASK]
  decide

theorem EV_TYPE_selection_clear (c : xcb_selection_clear_event_t) :
    EV_TYPE (Event.selection_clear c) = XCB_SELECTION_CLEAR := by
  simp only [EV_TYPE, Event.response_type, XCB_SELECTION_CLEAR, XCB_EVENT_RESPONSE_TYPE_MASK]
  decide

theorem strlen_take_length (buf : List Nat) :
    ∀ n, strlen buf = some n → (buf.take n).length = n := by
  induction buf with
  | nil =>
    intro n h
    cases h
  | cons c cs ih =>
    intro n h
    by_cases hc : c = 0
    · simp only [strlen, if_pos hc] at h
      cases h
      rfl
    · simp only [strlen, if_neg hc] at h
      cases hs : strlen cs with
      | none =>
        rw [hs] at h
        cases h
      | some k =>
        rw [hs] at h
        cases h
        simp [ih k hs]

theorem register_content_stored (reg : Register) (b : List Nat) (u : Nat)
    (hdata : reg.data = some (b ++ [u])) (hterm : 0 ∈ b ∨ u = 0) :
    register_content reg = some (b.takeWhile (fun c => c != 0)) := by
  have hmem : 0 ∈ b ++ [u] := by
    rcases hterm with h | h
    · exact List.mem_append_left _ h
    · subst h
      simp
  obtain ⟨h1, h2⟩ := strlen_terminated (b ++ [u]) hmem
  unfold register_content
  simp only [hdata, h1, h2]
  rw [takeWhile_append_terminator b u hterm]

theorem handle_selection_request_writes_register_content (s : Daemon)
    (r : Fin NUM_REGISTERS) (ev : xcb_selection_request_event_t) (c : List Nat)
    (hact : s.active_register = some r)
    (hc : register_content (s.registers r) = some c)
    (htarget : ev.target = s.atoms Atom.TEXT ∨ ev.target = s.atoms Atom.STRING ∨
      ev.target = s.atoms Atom.UTF8_STRING) :
    handle_selection_request ev s =
      some { s with
        X := s.X ++
          [XRequest.change_property XCB_PROP_MODE_REPLACE ev.requestor
             (if ev.property = XCB_NONE then ev.target else ev.property) ev.target 8
             c.length c,
           XRequest.send_event 0 ev.requestor XCB_EVENT_MASK_NO_EVENT
             { time := ev.time, requestor := ev.requestor, selection := ev.selection,
               target := ev.target,
               property := if ev.property = XCB_NONE then ev.target else ev.property }] } := by
  unfold register_content at hc
  cases hdata : (s.registers r).data with
  | none =>
    rw [hdata] at hc
    cases hc
  | some data =>
    rw [hdata] at hc
    cases hs : strlen data with
    | none =>
      simp only [hs] at hc
      cases hc
    | some n =>
      simp only [hs, Option.some.injEq] at hc
      subst hc
      unfold handle_selection_request
      simp only [hact, hdata, if_pos htarget, hs, strlen_take_length data n hs]

theorem demo_daemon_atoms_injective :
    ∀ j k : Fin NUM_REGISTERS,
      (demo_daemon.registers j).atom = (demo_daemon.registers k).atom → j = k := by
  intro j k h
  apply Fin.ext
  simpa [demo_daemon, init_daemon] using h

/-! ## C2: a conversion completion replaces the register's buffer -/

/-- C2 fails as stated. A selection-notify event for the atom of register 3 arrives when
the property holds the three bytes 97, 0, 98. The buffer left in register 3 is those
three bytes and the one spare byte of the allocation (here zero), and the content of the
register as the program reads it is the single byte 97, not the three bytes. -/
theorem selection_notify_content_cut_at_zero_byte :
    ((handle_selection_notify (demo_notify 1003) (some [97, 0, 98]) 0
        demo_daemon).registers 3).data = some [97, 0, 98, 0] ∧
    register_content ((handle_selection_notify (demo_notify 1003) (some [97, 0, 98]) 0
        demo_daemon).registers 3) = some [97] ∧
    register_content ((handle_selection_notify (demo_notify 1003) (some [97, 0, 98]) 0
        demo_daemon).registers 3) ≠ some [97, 0, 98] := by
  refine ⟨?_, ?_, ?_⟩ <;> decide

/-- C2 (as amended). Let the registers have pairwise distinct atoms and let the atom of
register `i` not be `XCB_NONE`. Handling a selection-notify event whose property is that
atom, when the property read returns the bytes `b`, leaves in register `i` a buffer made
of `b` and the one spare byte `u` that is allocated and never written; handling a second
such event with the bytes `b2` leaves a buffer made of `b2` and its spare byte `u2`,
with nothing of `b`. In both steps every other register keeps its buffer, and every
register keeps its atom. When the stored copy is zero-terminated inside its allocation
(the bytes have a zero byte, or the spare byte is zero), the content of register `i` as
the program reads it is the bytes before the first zero byte: all of `b` (resp. `b2`)
when it has no zero byte and the spare byte is zero. -/
theorem selection_notify_replaces_register_buffer (s : Daemon) (i : Fin NUM_REGISTERS)
    (b b2 : List Nat) (u u2 : Nat) (n n2 : xcb_selection_notify_event_t)
    (hinj : ∀ j k, (s.registers j).atom = (s.registers k).atom → j = k)
    (hnz : (s.registers i).atom ≠ XCB_NONE)
    (hp : n.property = (s.registers i).atom) (hp2 : n2.property = (s.registers i).atom) :
    (∀ j, ((handle_selection_notify n (some b) u s).registers j).data =
        if j = i then some (b ++ [u]) else (s.registers j).data) ∧
    (∀ j, ((handle_selection_notify n2 (some b2) u2
        (handle_selection_notify n (some b) u s)).registers j).data =
        if j = i then some (b2 ++ [u2]) else (s.registers j).data) ∧
    (∀ j, ((handle_selection_notify n2 (some b2) u2
        (handle_selection_notify n (some b) u s)).registers j).atom = (s.registers j).atom) ∧
    ((0 ∈ b ∨ u = 0) →
      register_content ((handle_selection_notify n (some b) u s).registers i) =
        some (b.takeWhile (fun c => c != 0))) ∧
    ((0 ∈ b2 ∨ u2 = 0) →
      register_content ((handle_selection_notify n2 (some b2) u2
        (handle_selection_notify n (some b) u s)).registers i) =
        some (b2.takeWhile (fun c => c != 0))) ∧
    (0 ∉ b → u = 0 →
      register_content ((handle_selection_notify n (some b) u s).registers i) = some b) ∧
    (0 ∉ b2 → u2 = 0 →
      register_content ((handle_selection_notify n2 (some b2) u2
        (handle_selection_notify n (some b) u s)).registers i) = some b2) := by
  have h1 := handle_selection_notify_stores s i b u n hinj hp (hp ▸ hnz)
  have hatom : ∀ j, ((handle_selection_notify n (some b) u s).registers j).atom =
      (s.registers j).atom := by
    intro j
    rw [h1]
    exact set_register_atom _ _ _ _
  have hinj1 : ∀ j k, ((handle_selection_notify n (some b) u s).registers j).atom =
      ((handle_selection_notify n (some b) u s).registers k).atom → j = k := by
    intro j k h
    rw [hatom j, hatom k] at h
    exact hinj j k h
  have hp21 : n2.property = ((handle_selection_notify n (some b) u s).registers i).atom := by
    rw [hatom i]
    exact hp2
  have h2 := handle_selection_notify_stores (handle_selection_notify n (some b) u s) i b2 u2
    n2 hinj1 hp21 (hp2 ▸ hnz)
  have hd1 : ((handle_selection_notify n (some b) u s).registers i).data =
      some (b ++ [u]) := by
    rw [h1]
    show (set_register _ i (b ++ [u]) i).data = _
    rw [set_register_data, if_pos rfl]
  have hd2 : ((handle_selection_notify n2 (some b2) u2
      (handle_selection_notify n (some b) u s)).registers i).data = some (b2 ++ [u2]) := by
    rw [h2]
    show (set_register _ i (b2 ++ [u2]) i).data = _
    rw [set_register_data, if_pos rfl]
  refine ⟨?_, ?_, ?_, ?_, ?_, ?_, ?_⟩
  · intro j
    rw [h1]
    exact set_register_data _ _ _ _
  · intro j
    rw [h2]
    show (set_register _ i (b2 ++ [u2]) j).data = _
    rw [set_register_data]
    by_cases hj : j = i
    · simp [hj]
    · rw [if_neg hj, if_neg hj, h1]
      show (set_register _ i (b ++ [u]) j).data = _
      rw [set_register_data, if_neg hj]
  · intro j
    rw [h2]
    show (set_register _ i (b2 ++ [u2]) j).atom = _
    rw [set_register_atom]
    exact hatom j
  · intro hterm
    exact register_content_stored _ b u hd1 hterm
  · intro hterm
    exact register_content_stored _ b2 u2 hd2 hterm
  · intro h0 hu
    rw [register_content_stored _ b u hd1 (Or.inr hu), takeWhile_no_zero b h0]
  · intro h0 hu
    rw [register_content_stored _ b2 u2 hd2 (Or.inr hu), takeWhile_no_zero b2 h0]

theorem selection_notify_replaces_register_buffer_witness :
    (∀ j k : Fin NUM_REGISTERS,
      (demo_daemon.registers j).atom = (demo_daemon.registers k).atom → j = k) ∧
    (demo_daemon.registers 3).atom ≠ XCB_NONE ∧
    (demo_notify 1003).property = (demo_daemon.registers 3).atom ∧
    (∀ j, ((handle_selection_notify (demo_notify 1003) (some [98, 50]) 0
        (handle_selection_notify (demo_notify 1003) (some [104, 105]) 0
          demo_daemon)).registers j).data =
        if j = 3 then some ([98, 50] ++ [0]) else (demo_daemon.registers j).data) ∧
    register_content ((handle_selection_notify (demo_notify 1003) (some [98, 50]) 0
        (handle_selection_notify (demo_notify 1003) (some [104, 105]) 0
          demo_daemon)).registers 3) = some [98, 50] :=
  ⟨demo_daemon_atoms_injective, by decide, by decide,
    (selection_notify_replaces_register_buffer demo_daemon 3 [104, 105] [98, 50] 0 0
      (demo_notify 1003) (demo_notify 1003) demo_daemon_atoms_injective (by decide)
      (by decide) (by decide)).2.1,
    (selection_notify_replaces_register_buffer demo_daemon 3 [104, 105] [98, 50] 0 0
      (demo_notify 1003) (demo_notify 1003) demo_daemon_atoms_injective (by decide)
      (by decide) (by decide)).2.2.2.2.2.2 (by decide) rfl⟩

/-! ## C1: what a paste followed by a content request serves -/

/-- C1 (as amended). Let the registers have pairwise distinct atoms, let a selection-notify
event for the atom of register `i` (not `XCB_NONE`) have stored the bytes `b`, the one
never-written byte of the buffer having the value `u`, and let the stored copy be
zero-terminated inside its allocation (`b` has a zero byte, or `u` is zero). Then
PASTE(i) makes register `i` the active register, and a following content request whose
target is TEXT, STRING or UTF8_STRING writes on the requestor, at the property of the
response and with the requested target as type, the bytes of `b` before its first zero
byte, which is all of `b` when `b` has no zero byte, and then sends the response. -/
theorem paste_then_request_serves_bytes_before_zero (s : Daemon) (i : Fin NUM_REGISTERS)
    (b : List Nat) (u : Nat) (n : xcb_selection_notify_event_t)
    (m : xcb_client_message_event_t) (ev : xcb_selection_request_event_t)
    (hinj : ∀ j k, (s.registers j).atom = (s.registers k).atom → j = k)
    (hnz : (s.registers i).atom ≠ XCB_NONE)
    (hp : n.property = (s.registers i).atom)
    (hm : m.data32_0 = i.val)
    (htarget : ev.target = s.atoms Atom.TEXT ∨ ev.target = s.atoms Atom.STRING ∨
      ev.target = s.atoms Atom.UTF8_STRING)
    (hterm : 0 ∈ b ∨ u = 0) :
    ∃ s2 : Daemon,
      handle_paste m (handle_selection_notify n (some b) u s) = some s2 ∧
      s2.active_register = some i ∧
      handle_selection_request ev s2 =
        some { s2 with
          X := s2.X ++
            [XRequest.change_property XCB_PROP_MODE_REPLACE ev.requestor
               (if ev.property = XCB_NONE then ev.target else ev.property) ev.target 8
               (b.takeWhile (fun c => c != 0)).length (b.takeWhile (fun c => c != 0)),
             XRequest.send_event 0 ev.requestor XCB_EVENT_MASK_NO_EVENT
               { time := ev.time, requestor := ev.requestor, selection := ev.selection,
                 target := ev.target,
                 property := if ev.property = XCB_NONE then ev.target else ev.property }] } ∧
      (0 ∉ b → b.takeWhile (fun c => c != 0) = b) := by
  have h1 := handle_selection_notify_stores s i b u n hinj hp (hp ▸ hnz)
  obtain ⟨w, t, d⟩ := m
  simp only at hm
  subst hm
  have hdata : ((handle_selection_notify n (some b) u s).registers i).data =
      some (b ++ [u]) := by
    rw [h1]
    show (set_register _ i (b ++ [u]) i).data = _
    rw [set_register_data, if_pos rfl]
  have hpaste : handle_paste { window := w, type := t, data32_0 := i.val }
      (handle_selection_notify n (some b) u s) =
      some { handle_selection_notify n (some b) u s with
        active_register := some i
        X := (handle_selection_notify n (some b) u s).X ++
          [XRequest.set_selection_owner (handle_selection_notify n (some b) u s).win
            ((handle_selection_notify n (some b) u s).atoms Atom.PRIMARY)
            XCB_CURRENT_TIME] } := by
    unfold handle_paste
    simp only [dif_pos i.isLt, Fin.eta, hdata, Option.isSome_some, if_true]
  refine ⟨_, hpaste, rfl, ?_, takeWhile_no_zero b⟩
  have hmem : 0 ∈ b ++ [u] := by
    rcases hterm with h | h
    · exact List.mem_append_left _ h
    · subst h
      simp
  have hatoms : (handle_selection_notify n (some b) u s).atoms = s.atoms := by
    rw [h1]
  have hreq := handle_selection_request_text
    { handle_selection_notify n (some b) u s with
        active_register := some i
        X := (handle_selection_notify n (some b) u s).X ++
          [XRequest.set_selection_owner (handle_selection_notify n (some b) u s).win
            ((handle_selection_notify n (some b) u s).atoms Atom.PRIMARY)
            XCB_CURRENT_TIME] }
    i ev (b ++ [u]) rfl hdata hmem (by rw [hatoms]; exact htarget)
  rw [takeWhile_append_terminator b u hterm] at hreq
  exact hreq


theorem paste_then_request_serves_bytes_before_zero_witness :
    (∀ j k : Fin NUM_REGISTERS,
      (demo_daemon.registers j).atom = (demo_daemon.registers k).atom → j = k) ∧
    (demo_daemon.registers 3).atom ≠ XCB_NONE ∧
    (demo_notify 1003).property = (demo_daemon.registers 3).atom ∧
    (demo_command 1 3).data32_0 = (3 : Fin NUM_REGISTERS).val ∧
    (0 ∈ [104, 105] ∨ 0 = 0) ∧
    ∃ s2 : Daemon,
      handle_paste (demo_command 1 3)
        (handle_selection_notify (demo_notify 1003) (some [104, 105]) 0 demo_daemon) =
        some s2 ∧
      s2.active_register = some 3 ∧
      handle_selection_request (demo_request 105 0) s2 =
        some { s2 with
          X := s2.X ++
            [XRequest.change_property XCB_PROP_MODE_REPLACE 9 105 105 8 2 [104, 105],
             XRequest.send_event 0 9 XCB_EVENT_MASK_NO_EVENT
               { time := 5, requestor := 9, selection := 102, target := 105,
                 property := 105 }] } ∧
      (0 ∉ [104, 105] → [104, 105].takeWhile (fun c => c != 0) = [104, 105]) :=
  ⟨demo_daemon_atoms_injective, by decide, by decide, by decide, by decide,
    paste_then_request_serves_bytes_before_zero demo_daemon 3 [104, 105] 0
      (demo_notify 1003) (demo_command 1 3) (demo_request 105 0)
      demo_daemon_atoms_injective (by decide) (by decide) (by decide) (by decide)
      (by decide)⟩

/-- C1 fails as stated. The daemon stores the three bytes 104, 0, 105 in register 3
(the buffer is those bytes and the one spare byte, here zero), receives PASTE(3) and then
a request for UTF8_STRING with an empty property field: the value it writes on the
requestor has length 1 and is the single byte 104, not the three stored bytes. -/
theorem paste_then_request_truncates_at_zero_byte :
    ((handle_selection_notify (demo_notify 1003) (some [104, 0, 105]) 0
        demo_daemon).registers 3).data = some [104, 0, 105, 0] ∧
    (handle_events demo_daemon
      [Event.selection_notify (demo_notify 1003) (some [104, 0, 105]) 0,
       Event.client_message (demo_command Atom.PASTE.toNat 3),
       Event.selection_request (demo_request (demo_atoms Atom.UTF8_STRING) XCB_NONE)]).map
      (fun s => (s.active_register, s.X)) =
      some (some 3,
        [XRequest.get_property 0 7 1003 0 0 4294967295,
         XRequest.delete_property 7 1003,
         XRequest.set_selection_owner 7 102 0,
         XRequest.change_property 0 9 105 105 8 1 [104],
         XRequest.send_event 0 9 0
           { time := 5, requestor := 9, selection := 102, target := 105,
             property := 105 }]) := by
  constructor <;> decide

/-! ## C3: refusals -/

/-- C3. When no register is active (whatever the target), or a register is active and
the target is none of TEXT, STRING, UTF8_STRING and TARGETS, `handle_selection_request`
changes nothing of the daemon state and writes exactly one request on the connection:
the response sent to the requestor, whose property is `XCB_NONE` and whose requestor,
selection, target and time are those of the request. No property is written. -/
theorem selection_request_refused (s : Daemon) (ev : xcb_selection_request_event_t)
    (h : s.active_register = none ∨
      (ev.target ≠ s.atoms Atom.TEXT ∧ ev.target ≠ s.atoms Atom.STRING ∧
        ev.target ≠ s.atoms Atom.UTF8_STRING ∧ ev.target ≠ s.atoms Atom.TARGETS)) :
    handle_selection_request ev s =
      some { s with
        X := s.X ++ [XRequest.send_event 0 ev.requestor XCB_EVENT_MASK_NO_EVENT
          { time := ev.time, requestor := ev.requestor, selection := ev.selection,
            target := ev.target, property := XCB_NONE }] } := by
  unfold handle_selection_request
  rcases h with h | ⟨h1, h2, h3, h4⟩
  · simp only [h]
  · cases hact : s.active_register with
    | none => rfl
    | some r => simp [h1, h2, h3, h4]

theorem selection_request_refused_witness :
    (demo_daemon.active_register = none ∨
      ((demo_request 109 77).target ≠ demo_daemon.atoms Atom.TEXT ∧
        (demo_request 109 77).target ≠ demo_daemon.atoms Atom.STRING ∧
        (demo_request 109 77).target ≠ demo_daemon.atoms Atom.UTF8_STRING ∧
        (demo_request 109 77).target ≠ demo_daemon.atoms Atom.TARGETS)) ∧
    handle_selection_request (demo_request 109 77) demo_daemon =
      some { demo_daemon with
        X := demo_daemon.X ++ [XRequest.send_event 0 9 XCB_EVENT_MASK_NO_EVENT
          { time := 5, requestor := 9, selection := 102, target := 109,
            property := XCB_NONE }] } :=
  ⟨Or.inl rfl, selection_request_refused demo_daemon (demo_request 109 77) (Or.inl rfl)⟩


/-! ## C4: the property of the response when the request names none -/

/-- C4 fails as stated. An idle daemon (no active register) receives a request for
UTF8_STRING (atom 105) with an empty property field: the response it sends has the
property `XCB_NONE` (0), not the requested target 105. -/
theorem empty_property_request_refused_when_idle :
    (handle_events demo_daemon
      [Event.selection_request (demo_request (demo_atoms Atom.UTF8_STRING) XCB_NONE)]).map
      (fun s => s.X) =
      some [XRequest.send_event 0 9 0
        { time := 5, requestor := 9, selection := 102, target := 105, property := 0 }] := by
  decide

/-- C4 (as amended). For a content request whose property field is `XCB_NONE` and that
the daemon serves (a register is active and either the target is TEXT, STRING or
UTF8_STRING and the buffer of the active register has a zero byte, or the target is not
one of these three and is TARGETS), `handle_selection_request` writes one property on the
requestor and then sends a response whose property is the requested target. -/
theorem selection_request_empty_property_served (s : Daemon)
    (ev : xcb_selection_request_event_t) (r : Fin NUM_REGISTERS)
    (hprop : ev.property = XCB_NONE) (hact : s.active_register = some r)
    (hserved :
      ((ev.target = s.atoms Atom.TEXT ∨ ev.target = s.atoms Atom.STRING ∨
          ev.target = s.atoms Atom.UTF8_STRING) ∧
        ∃ buf, (s.registers r).data = some buf ∧ 0 ∈ buf) ∨
      (¬ (ev.target = s.atoms Atom.TEXT ∨ ev.target = s.atoms Atom.STRING ∨
          ev.target = s.atoms Atom.UTF8_STRING) ∧
        ev.target = s.atoms Atom.TARGETS)) :
    ∃ (s1 : Daemon) (written : XRequest),
      handle_selection_request ev s = some s1 ∧
      s1.X = s.X ++ [written,
        XRequest.send_event 0 ev.requestor XCB_EVENT_MASK_NO_EVENT
          { time := ev.time, requestor := ev.requestor, selection := ev.selection,
            target := ev.target, property := ev.target }] := by
  rcases hserved with ⟨htext, buf, hdata, hterm⟩ | ⟨hnot, htargets⟩
  · have h := handle_selection_request_text s r ev buf hact hdata hterm htext
    rw [hprop, if_pos rfl] at h
    exact ⟨_, _, h, rfl⟩
  · have h : handle_selection_request ev s =
        some { s with
          X := s.X ++
            [XRequest.change_property XCB_PROP_MODE_REPLACE ev.requestor
               (s.atoms Atom.TARGETS) (s.atoms Atom.ATOM) 32 3
               [s.atoms Atom.TEXT, s.atoms Atom.STRING, s.atoms Atom.UTF8_STRING],
             XRequest.send_event 0 ev.requestor XCB_EVENT_MASK_NO_EVENT
               { time := ev.time, requestor := ev.requestor, selection := ev.selection,
                 target := ev.target, property := ev.target }] } := by
      unfold handle_selection_request
      simp only [hact, if_neg hnot, if_pos htargets, hprop, if_true, List.length_cons,
        List.length_nil]
    exact ⟨_, _, h, rfl⟩

theorem selection_request_empty_property_served_witness :
    (demo_request 105 0).property = XCB_NONE ∧
    demo_serving.active_register = some 3 ∧
    (((demo_request 105 0).target = demo_serving.atoms Atom.TEXT ∨
        (demo_request 105 0).target = demo_serving.atoms Atom.STRING ∨
        (demo_request 105 0).target = demo_serving.atoms Atom.UTF8_STRING) ∧
      ∃ buf, (demo_serving.registers 3).data = some buf ∧ 0 ∈ buf) ∧
    ∃ (s1 : Daemon) (written : XRequest),
      handle_selection_request (demo_request 105 0) demo_serving = some s1 ∧
      s1.X = demo_serving.X ++ [written,
        XRequest.send_event 0 9 XCB_EVENT_MASK_NO_EVENT
          { time := 5, requestor := 9, selection := 102, target := 105, property := 105 }] :=
  ⟨rfl, rfl, ⟨by decide, [104, 105, 0], by decide, by decide⟩,
    selection_request_empty_property_served demo_serving (demo_request 105 0) 3 rfl rfl
      (Or.inl ⟨by decide, [104, 105, 0], by decide, by decide⟩)⟩

/-! ## C5: the register index the command handlers use -/

/-- C5 fails as stated. Register 0 holds a buffer. PASTE with the payload word 0 makes
register 0 active; PASTE with the payload word 256 (which is 0 modulo 256) does not:
the handler indexes `registers[256]`, outside the array, and so does COPY with the
payload word 256. -/
theorem command_payload_not_reduced_by_handlers :
    (handle_events demo_daemon
      [Event.selection_notify (demo_notify 1000) (some [104]) 0,
       Event.client_message (demo_command Atom.PASTE.toNat 0)]).map
      (fun s => s.active_register) = some (some 0) ∧
    (handle_events demo_daemon
      [Event.selection_notify (demo_notify 1000) (some [104]) 0,
       Event.client_message (demo_command Atom.PASTE.toNat 256)]).map
      (fun s => s.active_register) = none ∧
    (handle_events demo_daemon
      [Event.client_message (demo_command Atom.COPY.toNat 256)]).map
      (fun s => s.X) = none := by
  refine ⟨?_, ?_, ?_⟩ <;> decide

/-- C5 (as amended). The handlers use the payload word itself as the index: `handle_copy`
and `handle_paste` stay inside the register array exactly when the payload word is below
256. The reduction modulo 256 is made by the sender: every message that `send_message`
builds (for any argument `d`, when a daemon window exists) carries the payload
`d % 256`, and on that message `handle_copy` asks for the conversion into the atom of
register `d % 256` and `handle_paste` tests and activates register `d % 256`. -/
theorem command_payload_reduced_by_send_message (s : Daemon) (dw win type d : Nat)
    (hdw : dw ≠ 0) :
    (∀ ev : xcb_client_message_event_t,
      ((handle_copy ev s).isSome = true ↔ ev.data32_0 < NUM_REGISTERS) ∧
      ((handle_paste ev s).isSome = true ↔ ev.data32_0 < NUM_REGISTERS)) ∧
    ∃ (msg : xcb_client_message_event_t) (h : d % NUM_REGISTERS < NUM_REGISTERS),
      send_message dw win type d = some msg ∧
      msg.data32_0 = d % NUM_REGISTERS ∧
      handle_copy msg s =
        some { s with
          X := s.X ++ [XRequest.convert_selection s.win (s.atoms Atom.PRIMARY)
            (s.atoms Atom.UTF8_STRING) (s.registers ⟨d % NUM_REGISTERS, h⟩).atom
            XCB_CURRENT_TIME] } ∧
      handle_paste msg s =
        if (s.registers ⟨d % NUM_REGISTERS, h⟩).data.isSome then
          some { s with
            active_register := some ⟨d % NUM_REGISTERS, h⟩
            X := s.X ++ [XRequest.set_selection_owner s.win (s.atoms Atom.PRIMARY)
              XCB_CURRENT_TIME] }
        else some s := by
  have hlt : d % NUM_REGISTERS < NUM_REGISTERS := Nat.mod_lt _ (by decide)
  refine ⟨?_, ⟨{ window := win, type := type, data32_0 := d % NUM_REGISTERS }, hlt, ?_, rfl,
    ?_, ?_⟩⟩
  · intro ev
    constructor
    · unfold handle_copy
      by_cases h : ev.data32_0 < NUM_REGISTERS
      · simp [h]
      · simp [h]
    · unfold handle_paste
      by_cases h : ev.data32_0 < NUM_REGISTERS
      · by_cases hd : (s.registers ⟨ev.data32_0, h⟩).data.isSome = true <;> simp [h, hd]
      · simp [h]
  · simp [send_message, hdw]
  · unfold handle_copy
    simp only [dif_pos hlt]
  · unfold handle_paste
    simp only [dif_pos hlt]

theorem command_payload_reduced_by_send_message_witness :
    (7 : Nat) ≠ 0 ∧
    ∃ (msg : xcb_client_message_event_t) (h : 259 % NUM_REGISTERS < NUM_REGISTERS),
      send_message 7 8 Atom.COPY.toNat 259 = some msg ∧
      msg.data32_0 = 259 % NUM_REGISTERS ∧
      handle_copy msg demo_daemon =
        some { demo_daemon with
          X := demo_daemon.X ++ [XRequest.convert_selection demo_daemon.win
            (demo_daemon.atoms Atom.PRIMARY) (demo_daemon.atoms Atom.UTF8_STRING)
            (demo_daemon.registers ⟨259 % NUM_REGISTERS, h⟩).atom XCB_CURRENT_TIME] } ∧
      handle_paste msg demo_daemon =
        if (demo_daemon.registers ⟨259 % NUM_REGISTERS, h⟩).data.isSome then
          some { demo_daemon with
            active_register := some ⟨259 % NUM_REGISTERS, h⟩
            X := demo_daemon.X ++ [XRequest.set_selection_owner demo_daemon.win
              (demo_daemon.atoms Atom.PRIMARY) XCB_CURRENT_TIME] }
        else some demo_daemon :=
  ⟨by decide,
    (command_payload_reduced_by_send_message demo_daemon 7 8 Atom.COPY.toNat 259
      (by decide)).2⟩


/-! ## C6: the reply to a TARGETS request -/

/-- C6, the code at the failing input. Register 3 is active and a request arrives for
TARGETS (atom 109) that names the property 77. The daemon writes the three atoms of TEXT,
STRING and UTF8_STRING (103, 104, 105), with type ATOM (108) and format 32, on the
property TARGETS (109) of the requestor, and sends a response that names the property
77, which it has not written. -/
theorem targets_reply_written_on_targets_property :
    (handle_events demo_daemon
      [Event.selection_notify (demo_notify 1003) (some [104, 105]) 0,
       Event.client_message (demo_command Atom.PASTE.toNat 3),
       Event.selection_request (demo_request (demo_atoms Atom.TARGETS) 77)]).map
      (fun s => (s.active_register, s.X)) =
      some (some 3,
        [XRequest.get_property 0 7 1003 0 0 4294967295,
         XRequest.delete_property 7 1003,
         XRequest.set_selection_owner 7 102 0,
         XRequest.change_property 0 9 109 108 32 3 [103, 104, 105],
         XRequest.send_event 0 9 0
           { time := 5, requestor := 9, selection := 102, target := 109,
             property := 77 }]) := by
  decide

/-! ## C7: losing a selection -/

/-- C7. `handle_selection_clear` never changes a register (atom or buffer). When the
lost selection is `BUFFALO_DAEMON`, `running` becomes false, the active register is left
as it was, and the main loop, entered in that state, handles no further event whatever
events are pending. For any other selection the active register becomes NULL and
`running` is unchanged. -/
theorem selection_clear_effect (s : Daemon) (ev : xcb_selection_clear_event_t) :
    (handle_selection_clear ev s).registers = s.registers ∧
    if ev.selection = s.atoms Atom.BUFFALO_DAEMON then
      (handle_selection_clear ev s).running = false ∧
      (handle_selection_clear ev s).active_register = s.active_register ∧
      ∀ evs, buffalo_daemon_loop (handle_selection_clear ev s) evs =
        some (handle_selection_clear ev s)
    else
      (handle_selection_clear ev s).active_register = none ∧
      (handle_selection_clear ev s).running = s.running := by
  by_cases h : ev.selection = s.atoms Atom.BUFFALO_DAEMON
  · simp only [handle_selection_clear, if_pos h, true_and]
    intro evs
    cases evs with
    | nil => rfl
    | cons e es => simp [buffalo_daemon_loop]
  · simp [handle_selection_clear, h]

/-! ## C8: PASTE of an empty register -/

/-- C8. When the buffer of register `i` is NULL, handling PASTE(i) returns the daemon
state unchanged: the same active register (NULL or any register), the same registers,
and no request written on the connection, so no claim of PRIMARY. -/
theorem paste_empty_register_noop (s : Daemon) (i : Fin NUM_REGISTERS)
    (m : xcb_client_message_event_t) (hm : m.data32_0 = i.val)
    (hempty : (s.registers i).data = none) :
    handle_paste m s = some s ∧
    handle_event (Event.client_message { m with type := Atom.PASTE.toNat }) s = some s := by
  obtain ⟨w, t, d⟩ := m
  simp only at hm
  subst hm
  have hp : ∀ t2, handle_paste { window := w, type := t2, data32_0 := i.val } s = some s := by
    intro t2
    unfold handle_paste
    simp only [dif_pos i.isLt, Fin.eta, hempty, Option.isSome_none, Bool.false_eq_true,
      if_false]
  refine ⟨hp t, ?_⟩
  simp only [handle_event]
  rw [if_pos (EV_TYPE_client_message _), handle_message_cases]
  simp only [Atom.toNat, if_neg (show ¬ (1 = 0) by decide), if_pos]
  exact hp 1

theorem paste_empty_register_noop_witness :
    (demo_command 1 5).data32_0 = (5 : Fin NUM_REGISTERS).val ∧
    (demo_serving.registers 5).data = none ∧
    handle_paste (demo_command 1 5) demo_serving = some demo_serving ∧
    handle_event (Event.client_message { demo_command 1 5 with type := Atom.PASTE.toNat })
      demo_serving = some demo_serving :=
  ⟨rfl, by decide, paste_empty_register_noop demo_serving 5 (demo_command 1 5) rfl (by decide)⟩


/-! ## C10: the active register always has a buffer -/

theorem handle_selection_notify_keeps (ev : xcb_selection_notify_event_t)
    (reply : Option (List Nat)) (uninit : Nat) (s : Daemon) :
    (handle_selection_notify ev reply uninit s).active_register = s.active_register ∧
    ∀ j, (s.registers j).data.isSome = true →
      ((handle_selection_notify ev reply uninit s).registers j).data.isSome = true := by
  unfold handle_selection_notify
  by_cases hp : ev.property ≠ XCB_NONE
  · rw [if_pos hp]
    cases hf : find_register s.registers ev.property with
    | none => exact ⟨rfl, fun j h => h⟩
    | some reg =>
      cases reply with
      | none => exact ⟨rfl, fun j h => h⟩
      | some value =>
        refine ⟨rfl, fun j h => ?_⟩
        show (set_register s.registers reg _ j).data.isSome = true
        rw [set_register_data]
        split
        · rfl
        · exact h
  · rw [if_neg hp]
    exact ⟨rfl, fun j h => h⟩

theorem handle_copy_keeps (m : xcb_client_message_event_t) (s s1 : Daemon)
    (h : handle_copy m s = some s1) :
    s1.active_register = s.active_register ∧ s1.registers = s.registers := by
  unfold handle_copy at h
  split at h
  · cases h
    exact ⟨rfl, rfl⟩
  · cases h

theorem handle_paste_preserves (m : xcb_client_message_event_t) (s s1 : Daemon)
    (hinv : ActiveHasData s) (h : handle_paste m s = some s1) : ActiveHasData s1 := by
  unfold handle_paste at h
  simp only at h
  split at h
  · split at h
    · cases h
      intro r hr
      cases hr
      assumption
    · cases h
      exact hinv
  · cases h

theorem handle_selection_request_keeps (ev : xcb_selection_request_event_t) (s s1 : Daemon)
    (h : handle_selection_request ev s = some s1) :
    s1.active_register = s.active_register ∧ s1.registers = s.registers := by
  unfold handle_selection_request at h
  simp only at h
  split at h
  · split at h
    · split at h
      · cases h
      · split at h
        · cases h
        · cases h
          exact ⟨rfl, rfl⟩
    · split at h
      · cases h
        exact ⟨rfl, rfl⟩
      · cases h
        exact ⟨rfl, rfl⟩
  · cases h
    exact ⟨rfl, rfl⟩

theorem handle_event_preserves (ev : Event) (s s1 : Daemon) (hinv : ActiveHasData s)
    (h : handle_event ev s = some s1) : ActiveHasData s1 := by
  cases ev with
  | client_message m =>
    simp only [handle_event] at h
    rw [if_pos (EV_TYPE_client_message m), handle_message_cases] at h
    split at h
    · obtain ⟨ha, hr⟩ := handle_copy_keeps m s s1 h
      intro r hact
      rw [hr]
      exact hinv r (ha ▸ hact)
    · split at h
      · exact handle_paste_preserves m s s1 hinv h
      · cases h
        exact hinv
  | selection_notify n reply uninit =>
    simp only [handle_event] at h
    rw [if_pos (EV_TYPE_selection_notify n reply uninit)] at h
    cases h
    obtain ⟨ha, hr⟩ := handle_selection_notify_keeps n reply uninit s
    intro r hact
    exact hr r (hinv r (ha ▸ hact))
  | selection_request q =>
    simp only [handle_event] at h
    rw [if_pos (EV_TYPE_selection_request q)] at h
    obtain ⟨ha, hr⟩ := handle_selection_request_keeps q s s1 h
    intro r hact
    rw [hr]
    exact hinv r (ha ▸ hact)
  | selection_clear c =>
    simp only [handle_event] at h
    rw [if_pos (EV_TYPE_selection_clear c)] at h
    cases h
    intro r hact
    unfold handle_selection_clear at hact ⊢
    simp only at hact ⊢
    split at hact
    · rw [if_pos (by assumption)]
      exact hinv r hact
    · cases hact
  | unhandled rt =>
    simp only [handle_event] at h
    cases h
    exact hinv

theorem handle_events_preserves (evs : List Event) :
    ∀ (s s1 : Daemon), ActiveHasData s → handle_events s evs = some s1 → ActiveHasData s1 := by
  induction evs with
  | nil =>
    intro s s1 hinv h
    simp only [handle_events, List.foldlM, pure] at h
    cases h
    exact hinv
  | cons ev evs ih =>
    intro s s1 hinv h
    simp only [handle_events, List.foldlM_cons] at h
    cases hev : handle_event ev s with
    | none =>
      rw [hev] at h
      cases h
    | some s2 =>
      rw [hev] at h
      exact ih s2 s1 (handle_event_preserves ev s s2 hinv hev) h

/-- C10. Start the daemon with every register buffer NULL and no active register, and
let `handle_event` handle any sequence of events (a command payload outside 0..255 and a
read past a buffer are undefined behaviour and end the run). In the state reached, the
active register is NULL or points at a register whose buffer is not NULL, so the
`strlen(active_register->data)` of `handle_selection_request` is never given NULL. -/
theorem active_register_always_has_buffer (win : Nat) (atoms : Atom → Nat)
    (register_atoms : Fin NUM_REGISTERS → Nat) (evs : List Event) (s : Daemon)
    (hrun : handle_events (init_daemon win atoms register_atoms) evs = some s) :
    ∀ r, s.active_register = some r → ∃ data, (s.registers r).data = some data := by
  have hinit : ActiveHasData (init_daemon win atoms register_atoms) := by
    intro r hr
    cases hr
  intro r hr
  have h := handle_events_preserves evs _ s hinit hrun r hr
  exact Option.isSome_iff_exists.mp h

theorem active_register_always_has_buffer_witness :
    handle_events (init_daemon 7 demo_atoms (fun i => 1000 + i.val))
      [Event.selection_notify (demo_notify 1003) (some [104, 105]) 0,
       Event.client_message (demo_command Atom.PASTE.toNat 3)] =
      some { demo_serving with
        X := [XRequest.get_property 0 7 1003 0 0 4294967295,
          XRequest.delete_property 7 1003, XRequest.set_selection_owner 7 102 0] } ∧
    ∀ r, demo_serving.active_register = some r →
      ∃ data, (demo_serving.registers r).data = some data :=
  ⟨rfl, active_register_always_has_buffer 7 demo_atoms (fun i => 1000 + i.val)
    [Event.selection_notify (demo_notify 1003) (some [104, 105]) 0,
     Event.client_message (demo_command Atom.PASTE.toNat 3)]
    { demo_serving with
      X := [XRequest.get_property 0 7 1003 0 0 4294967295,
        XRequest.delete_property 7 1003, XRequest.set_selection_owner 7 102 0] } rfl⟩

end Buffalo
